import Mathlib

/-!
Verification of the Split.js pairwise layout-and-drag engine.

This file shallowly embeds the algorithmic core of the repository:

* `src/split.js` — the legacy facade: the `adjust`, `calculateSizes`, `drag`,
  `collapse`, `destroy` routines and the construction loop of `Split`;
* `src/ui-splitter.ts` — the TypeScript facade: option merging,
  `createPanes`, and the `Pane`/`Gutter` classes of `src/lib`.

Numbers (sizes in percent, pixel offsets) are modelled as `Rat`; DOM geometry
reads (`getBoundingClientRect` along the active axis) are modelled as an
explicit function from element index to measured `(dimension, position)`;
DOM style writes are modelled as explicit state.  Fallible construction is
modelled with `Except`.
-/

namespace SplitJS

/-- An entry of the `elements` array built by `Split`:
`{ element, size, minSize }` (the DOM element reference is dropped; `size`
is the percentage share, `minSize` the pixel floor). -/
structure SJElement where
  size : Rat
  minSize : Rat
deriving Repr, DecidableEq

/-- A pair object as built by `Split`: indices `a`, `b` into the elements
array, gutter allowances, the cached span `size` and leading edge `start`
(snapshot taken by `calculateSizes`), the `dragging` flag, `isFirst`/`isLast`
flags, and the index of its gutter element. -/
structure SJPair where
  a : Nat
  b : Nat
  aGutterSize : Rat
  bGutterSize : Rat
  size : Rat
  start : Rat
  dragging : Bool
  isFirst : Bool
  isLast : Bool
  gutter : Nat
deriving Repr, DecidableEq

def emptyElement : SJElement := ⟨0, 0⟩

def emptyPair : SJPair := ⟨0, 0, 0, 0, 0, 0, false, false, false, 0⟩

/-- `elements[i]` (JS array indexing, defaulted out of range). -/
def getElement (es : List SJElement) (i : Nat) : SJElement :=
  (es[i]?).getD emptyElement

/-- `pairs[i]` (JS array indexing, defaulted out of range). -/
def getPair (ps : List SJPair) (i : Nat) : SJPair :=
  (ps[i]?).getD emptyPair

/-- The mutable state a `Split` instance closes over: the `elements` array
and the `pairs` array. -/
structure SplitState where
  elements : List SJElement
  pairs : List SJPair
deriving Repr, DecidableEq

/-- The configuration options consumed by the drag path. -/
structure DragConfig where
  pushablePanes : Bool
  snapOffset : Rat
deriving Repr, DecidableEq

/-- `calculateSizes` from `split.js`: re-snapshot the pair's span and leading
edge from live geometry.  `g i = (bounds[dimension], bounds[position])` is the
`getBoundingClientRect` reading for element `i`. -/
def calculateSizes (g : Nat → Rat × Rat) (p : SJPair) : SJPair :=
  { p with
      size := (g p.a).1 + (g p.b).1 + p.aGutterSize + p.bGutterSize,
      start := (g p.a).2 }

/-- `adjust` from `split.js`: set `a.size` to `(offset / pair.size) *
(a.size + b.size)` and `b.size` to the remainder of that same total, then
restyle both elements (the style write carries no model state beyond
`size`). -/
def adjust (es : List SJElement) (p : SJPair) (offset : Rat) : List SJElement :=
  let a := getElement es p.a
  let b := getElement es p.b
  let percentage := a.size + b.size
  let es1 := es.set p.a { a with size := offset / p.size * percentage }
  es1.set p.b { getElement es1 p.b with size := percentage - offset / p.size * percentage }

/-- The push-through stage of `drag` (`if (pushablePanes && pairs.length > 1)`):
starting from a shallow copy of `pairs[pairIndex]`, possibly rebind `a`/
`aGutterSize` to the earlier neighbour's (offset going negative, not first)
and/or `b`/`bGutterSize` to the later neighbour's (offset beyond the span,
not last), shifting the offset by the difference of the two `start`s in the
first case, and re-snapshot the copy with `calculateSizes` when a neighbour
was borrowed.  Returns the effective pair copy and the adjusted offset. -/
def dragPush (cfg : DragConfig) (g : Nat → Rat × Rat) (pairs : List SJPair)
    (pairIndex : Nat) (eventOffset : Rat) : SJPair × Rat :=
  let pair := getPair pairs pairIndex
  if cfg.pushablePanes ∧ pairs.length > 1 then
    let st1 : SJPair × Rat × Bool :=
      if ¬ pair.isFirst ∧ eventOffset < 0 then
        let pushedPair := getPair pairs (pairIndex - 1)
        ({ pair with a := pushedPair.a, aGutterSize := pushedPair.aGutterSize },
          eventOffset + (pair.start - pushedPair.start), true)
      else (pair, eventOffset, false)
    let st2 : SJPair × Rat × Bool :=
      if ¬ pair.isLast ∧ eventOffset > pair.size then
        let pushedPair := getPair pairs (pairIndex + 1)
        ({ st1.1 with b := pushedPair.b, bGutterSize := pushedPair.bGutterSize },
          st1.2.1, true)
      else st1
    if st2.2.2 then (calculateSizes g st2.1, st2.2.1) else (st2.1, st2.2.1)
  else (pair, eventOffset)

/-- The snap stage of `drag`: clamp the offset to `a.minSize + aGutterSize`
when at or below `a.minSize + snapOffset + aGutterSize`, else to
`pair.size - (b.minSize + bGutterSize)` when at or beyond
`pair.size - (b.minSize + snapOffset + bGutterSize)`. -/
def snapClamp (snapOff aMin bMin : Rat) (p : SJPair) (off : Rat) : Rat :=
  if off ≤ aMin + snapOff + p.aGutterSize then aMin + p.aGutterSize
  else if off ≥ p.size - (bMin + snapOff + p.bGutterSize) then
    p.size - (bMin + p.bGutterSize)
  else off

/-- The effective pair a move event operates on: the shallow copy of
`pairs[pairIndex]` after the push-through stage.  `clientPos` is the pointer
coordinate along the active axis; `eventOffset = clientPos - pair.start`. -/
def dragEffectivePair (cfg : DragConfig) (g : Nat → Rat × Rat) (st : SplitState)
    (pairIndex : Nat) (clientPos : Rat) : SJPair :=
  (dragPush cfg g st.pairs pairIndex (clientPos - (getPair st.pairs pairIndex).start)).1

/-- The computed (push-adjusted, pre-snap) offset of a move event. -/
def dragComputedOffset (cfg : DragConfig) (g : Nat → Rat × Rat) (st : SplitState)
    (pairIndex : Nat) (clientPos : Rat) : Rat :=
  (dragPush cfg g st.pairs pairIndex (clientPos - (getPair st.pairs pairIndex).start)).2

/-- The offset actually passed to `adjust` by a move event: the computed
offset after the snap clamps.  The minimum sizes come from
`elements[pair.a]` / `elements[pair.b]` read from the base pair before the
push-through stage, exactly as in the source (`const a = elements[pair.a]`
precedes the push block). -/
def dragAppliedOffset (cfg : DragConfig) (g : Nat → Rat × Rat) (st : SplitState)
    (pairIndex : Nat) (clientPos : Rat) : Rat :=
  snapClamp cfg.snapOffset
    (getElement st.elements (getPair st.pairs pairIndex).a).minSize
    (getElement st.elements (getPair st.pairs pairIndex).b).minSize
    (dragEffectivePair cfg g st pairIndex clientPos)
    (dragComputedOffset cfg g st pairIndex clientPos)

/-- One move event handled by `drag`: no-op unless the pair is dragging,
otherwise `adjust` the elements through the effective pair copy at the
snapped offset.  The `pairs` array itself is never written. -/
def dragEvent (cfg : DragConfig) (g : Nat → Rat × Rat) (st : SplitState)
    (pairIndex : Nat) (clientPos : Rat) : SplitState :=
  if (getPair st.pairs pairIndex).dragging then
    let es := adjust st.elements (dragEffectivePair cfg g st pairIndex clientPos)
      (dragAppliedOffset cfg g st pairIndex clientPos)
    { st with elements := es }
  else st

/-- A sequence of move events on one divider. -/
def dragSeq (cfg : DragConfig) (g : Nat → Rat × Rat) (st : SplitState)
    (pairIndex : Nat) (coords : List Rat) : SplitState :=
  coords.foldl (fun s c => dragEvent cfg g s pairIndex c) st

/-- The condition under which a move event borrows a neighbour (push-through
actually fires): pushable panes enabled, more than one pair, and the event
offset either negative on a non-first pair or beyond the span on a non-last
pair. -/
def borrowsNeighbor (cfg : DragConfig) (pairs : List SJPair) (pairIndex : Nat)
    (eventOffset : Rat) : Prop :=
  cfg.pushablePanes ∧ pairs.length > 1 ∧
    ((¬ (getPair pairs pairIndex).isFirst ∧ eventOffset < 0) ∨
     (¬ (getPair pairs pairIndex).isLast ∧ eventOffset > (getPair pairs pairIndex).size))

instance (cfg : DragConfig) (pairs : List SJPair) (pairIndex : Nat) (eventOffset : Rat) :
    Decidable (borrowsNeighbor cfg pairs pairIndex eventOffset) := by
  unfold borrowsNeighbor; infer_instance

/-- `collapse(i)` from the `Split` return object (non-IE8 path): on the base
pair object (`pairs[i]`, or `pairs[i - 1]` when `i` equals the pair count),
re-snapshot geometry with `calculateSizes` — persisted, since `collapse`
takes no copy — then call the same `adjust` routine with computed offset
`pair.aGutterSize` (or `pair.size - pair.bGutterSize` for the last-index
form). -/
def collapse (g : Nat → Rat × Rat) (st : SplitState) (i : Nat) : SplitState :=
  if i = st.pairs.length then
    let pair := calculateSizes g (getPair st.pairs (i - 1))
    { elements := adjust st.elements pair (pair.size - pair.bGutterSize),
      pairs := st.pairs.set (i - 1) pair }
  else
    let pair := calculateSizes g (getPair st.pairs i)
    { elements := adjust st.elements pair pair.aGutterSize,
      pairs := st.pairs.set i pair }

/-- The pair object built for element index `i > 0` by the construction loop
of `Split` (`n` total elements): `a = i - 1`, `b = i`, full gutter
allowances, halved at the first (`i = 1`) and last (`i = n - 1`) pair; `a`
and `b` are swapped when the parent has a reverse flex direction.  The
gutter element of pair `i - 1` is the one inserted before element `i`,
recorded here by index `i`.  `size`/`start` are unset until the first
`calculateSizes` (modelled as 0). -/
def mkPair (gutterSize : Rat) (n : Nat) (rev : Bool) (i : Nat) : SJPair :=
  let isFirst : Bool := i = 1
  let isLast : Bool := i = n - 1
  let aG := if isFirst then gutterSize / 2 else gutterSize
  let bG := if isLast then gutterSize / 2 else gutterSize
  if rev then
    { a := i, b := i - 1, aGutterSize := aG, bGutterSize := bG, size := 0, start := 0,
      dragging := false, isFirst := isFirst, isLast := isLast, gutter := i }
  else
    { a := i - 1, b := i, aGutterSize := aG, bGutterSize := bG, size := 0, start := 0,
      dragging := false, isFirst := isFirst, isLast := isLast, gutter := i }

/-- The `pairs` array built by the construction loop (`ids.map`): one pair
pushed per element index `i > 0`. -/
def buildPairs (gutterSize : Rat) (n : Nat) (rev : Bool) : List SJPair :=
  (List.range n).filterMap (fun i => if 0 < i then some (mkPair gutterSize n rev i) else none)

/-- The gutter allowance used to style element `i` of `n` at construction
(`setElementSize` call sites): half for the first and last element, full
otherwise. -/
def elementGutterAllowance (gutterSize : Rat) (n i : Nat) : Rat :=
  if i = 0 ∨ i = n - 1 then gutterSize / 2 else gutterSize

/-- Observable DOM effects of the `Split` construction loop up to some
point: gutter elements inserted into the parent, elements styled. -/
structure BuildProgress where
  guttersInserted : Nat
  elementsStyled : Nat
deriving Repr, DecidableEq

/-- One iteration of the `ids.map` construction loop of `Split`, for element
index `i` whose `elementOrSelector` resolution is `idRes` (`none` for a
selector matching nothing, i.e. `querySelector` returned `null`).  For
`i > 0` the gutter element is created and inserted first —
`parent.insertBefore(gutterElement, element.element)` succeeds even when
`element.element` is `null` (it appends) — and only then does
`setElementSize` dereference the element's `style`, throwing a `TypeError`
when the element is `null`.  The error carries the DOM effects already
performed at the throw. -/
def buildStep (i : Nat) (idRes : Option Nat) (p : BuildProgress) :
    Except BuildProgress BuildProgress :=
  let p1 := if 0 < i then { p with guttersInserted := p.guttersInserted + 1 } else p
  match idRes with
  | none => Except.error p1
  | some _ => Except.ok { p1 with elementsStyled := p1.elementsStyled + 1 }

/-- The construction loop over all ids, threading the DOM-effect log. -/
def buildLoop : Nat → List (Option Nat) → BuildProgress → Except BuildProgress BuildProgress
  | _, [], p => Except.ok p
  | i, idRes :: rest, p =>
    match buildStep i idRes p with
    | Except.error q => Except.error q
    | Except.ok q => buildLoop (i + 1) rest q

/-- Construction by the `Split` facade, returning the DOM-effect log, or (on
a throw) the log at the moment of the throw.  `elementOrSelector(ids[0])
.parentNode` runs before the loop, so a first id resolving to nothing (or an
empty id list) throws with no effects at all. -/
def splitBuild (ids : List (Option Nat)) : Except BuildProgress BuildProgress :=
  match ids with
  | [] => Except.error ⟨0, 0⟩
  | none :: _ => Except.error ⟨0, 0⟩
  | some _ :: _ => buildLoop 0 ids ⟨0, 0⟩

/-- An inline style map of one pane element: CSS property name to value. -/
def clearDim (dim : String) (style : String → String) : String → String :=
  fun p => if p = dim then "" else style p

def emptyStyle : String → String := fun _ => ""

/-- `elements[pair.x].element.style[dimension] = ''` on pane `i`. -/
def clearPaneDim (dim : String) (styles : List (String → String)) (i : Nat) :
    List (String → String) :=
  styles.set i (clearDim dim (styles.getD i emptyStyle))

/-- The DOM state `destroy` acts on: the parent's child list (gutter element
indices) and the inline style maps of the pane elements. -/
structure DestroyDOM where
  parentChildren : List Nat
  paneStyles : List (String → String)

/-- `destroy` from `split.js`: for each pair, remove its gutter from the
parent and clear the axis dimension's inline style on both of its
elements. -/
def destroy (dim : String) (pairs : List SJPair) (d : DestroyDOM) : DestroyDOM :=
  pairs.foldl
    (fun acc pair =>
      { parentChildren := acc.parentChildren.erase pair.gutter,
        paneStyles := clearPaneDim dim (clearPaneDim dim acc.paneStyles pair.a) pair.b })
    d

end SplitJS

namespace UISplitter

/-- JS truthiness of a possibly-`undefined` boolean property. -/
def truthy (o : Option Bool) : Bool := o.getD false

/-- A `getBoundingClientRect` result. -/
structure BoundsRect where
  width : Rat
  height : Rat
  top : Rat
  bottom : Rat
  left : Rat
  right : Rat
deriving Repr, DecidableEq

/-- The options record a `Pane` stores (`PaneOptions` of `src/lib/Pane.ts`);
`isReverse` may be `undefined` at runtime (passed as a property that was
never set), modelled as `none`. -/
structure UIPaneOptions where
  isVertical : Bool
  isReverse : Option Bool
deriving Repr, DecidableEq

/-- The geometry fields of a `Pane`, unset before the first assignment. -/
structure PaneGeom where
  size : Option Rat
  start : Option Rat
  endEdge : Option Rat
deriving Repr, DecidableEq

/-- `Pane.refreshSize` from `src/lib/Pane.ts`, exactly as written in the
source: both branches test `o.isVertical` (the second also — not
`!o.isVertical`), the first using height/top-bottom/left-right geometry and
the second width/left-right/top-bottom geometry. -/
def paneRefreshSize (o : UIPaneOptions) (bounds : BoundsRect) (gm : PaneGeom) : PaneGeom :=
  let gm1 :=
    if o.isVertical then
      { size := some bounds.height,
        start := some (if truthy o.isReverse then bounds.bottom else bounds.top),
        endEdge := some (if truthy o.isReverse then bounds.right else bounds.left) }
    else gm
  if o.isVertical then
    { size := some bounds.width,
      start := some (if truthy o.isReverse then bounds.right else bounds.left),
      endEdge := some (if truthy o.isReverse then bounds.bottom else bounds.top) }
  else gm1

/-- `Gutter.refreshSize` from `src/lib/Gutter.ts`: same double
`isVertical` test, size only. -/
def gutterRefreshSize (isVertical : Bool) (bounds : BoundsRect) (sz : Option Rat) : Option Rat :=
  let sz1 := if isVertical then some bounds.height else sz
  if isVertical then some bounds.width else sz1

/-- The caller-supplied `Partial<UISplitterOptions>` (data options only; the
interface declares no `reversedDirection` or `reverseDirection` key, so the
merge can never receive one). -/
structure UIUserOptions where
  direction : Option String
  cursor : Option String
  gutterSize : Option Rat
  minSize : Option Rat
  snapOffset : Option Rat
  pushablePanes : Option Bool
deriving Repr, DecidableEq

/-- The `this.options` object after the `UISplitter` constructor ran:
defaults spread then user options spread, then `cursor` recomputed from the
user's `cursor` or the merged direction, then `reverseDirection` set to
`false`.  `reversedDirection` is never assigned anywhere, hence `none`
(undefined). -/
structure UIMergedOptions where
  direction : String
  cursor : String
  gutterSize : Rat
  minSize : Rat
  snapOffset : Rat
  pushablePanes : Bool
  reverseDirection : Option Bool
  reversedDirection : Option Bool
deriving Repr, DecidableEq

def mergeOptions (u : UIUserOptions) : UIMergedOptions :=
  let direction := u.direction.getD "horizontal"
  { direction := direction,
    cursor :=
      match u.cursor with
      | some c => c
      | none => if direction = "horizontal" then "col-resize" else "row-resize",
    gutterSize := u.gutterSize.getD 10,
    minSize := u.minSize.getD 100,
    snapOffset := u.snapOffset.getD 30,
    pushablePanes := u.pushablePanes.getD false,
    reverseDirection := some false,
    reversedDirection := none }

/-- A constructed `Pane` (element index plus stored options). -/
structure UIPane where
  el : Nat
  options : UIPaneOptions
deriving Repr, DecidableEq

/-- `UISplitter.createPanes`: map each id to a `Pane`, throwing (`Error`)
at the first selector that resolves to no element; `isVertical` compares the
merged direction to `'vertical'` and `isReverse` reads
`this.options.reversedDirection`.  No divider/gutter element is created or
inserted anywhere in this facade. -/
def createPanes (opts : UIMergedOptions) : List (Option Nat) → Except Unit (List UIPane)
  | [] => Except.ok []
  | none :: _ => Except.error ()
  | some e :: rest =>
    (createPanes opts rest).map
      (fun ps => ⟨e, ⟨opts.direction = "vertical", opts.reversedDirection⟩⟩ :: ps)

end UISplitter

namespace SplitJS

/-- Concrete geometry: every element reads as 0 wide at 0 (never consulted
on the non-push paths under scrutiny). -/
def fixG : Nat → Rat × Rat := fun _ => (0, 0)

/-- Concrete geometry of a 1000px parent with two 495px panes
(50 percent minus a 5px gutter allowance each). -/
def fixG1000 : Nat → Rat × Rat := fun i => if i = 0 then (495, 0) else (495, 505)

/-- A dragging pair over two panes, 5px gutter allowances, snapshotted span
100 starting at 0. -/
def fixPair : SJPair :=
  { a := 0, b := 1, aGutterSize := 5, bGutterSize := 5, size := 100, start := 0,
    dragging := true, isFirst := true, isLast := true, gutter := 1 }

/-- Two panes of 50 percent each with a 50px minimum, joined by `fixPair`. -/
def fixSt : SplitState :=
  { elements := [⟨50, 50⟩, ⟨50, 50⟩], pairs := [fixPair] }

/-- Push-through disabled, default 30px snap distance. -/
def fixCfg : DragConfig := { pushablePanes := false, snapOffset := 30 }

/-- A dragging pair like `fixPair` but with a 200px span, wide enough to
fit both minima and gutters. -/
def fixPairWide : SJPair :=
  { a := 0, b := 1, aGutterSize := 5, bGutterSize := 5, size := 200, start := 0,
    dragging := true, isFirst := true, isLast := true, gutter := 1 }

/-- The two 50px-minimum panes joined by `fixPairWide`. -/
def fixStWide : SplitState :=
  { elements := [⟨50, 50⟩, ⟨50, 50⟩], pairs := [fixPairWide] }

/-- A DOM with three styled panes and the two gutters (1 and 2) among the
parent's children. -/
def fixDom : DestroyDOM :=
  { parentChildren := [7, 1, 2],
    paneStyles := [fun _ => "s0", fun _ => "s1", fun _ => "s2"] }

end SplitJS

namespace UISplitter

/-- A caller passing no options at all. -/
def fixUser : UIUserOptions := ⟨none, none, none, none, none, none⟩

/-- The panes `createPanes` yields for two resolving ids under default
options. -/
def fixPanes : List UIPane := [⟨0, ⟨false, none⟩⟩, ⟨1, ⟨false, none⟩⟩]

end UISplitter

namespace SplitJS

theorem adjust_length (es : List SJElement) (p : SJPair) (off : Rat) :
    (adjust es p off).length = es.length := by
  simp [adjust]

theorem getElement_adjust_a (es : List SJElement) (p : SJPair) (off : Rat)
    (hab : p.a ≠ p.b) (ha : p.a < es.length) :
    (getElement (adjust es p off) p.a).size
      = off / p.size * ((getElement es p.a).size + (getElement es p.b).size) := by
  simp only [adjust, getElement]
  simp [List.getElem?_set, Ne.symm hab, ha]

theorem getElement_adjust_b (es : List SJElement) (p : SJPair) (off : Rat)
    (hb : p.b < es.length) :
    (getElement (adjust es p off) p.b).size
      = (getElement es p.a).size + (getElement es p.b).size
        - off / p.size * ((getElement es p.a).size + (getElement es p.b).size) := by
  simp only [adjust, getElement]
  by_cases hab : p.a = p.b
  · simp [List.getElem?_set, hab, hb]
  · simp [List.getElem?_set, hab, hb]

theorem adjust_sum (es : List SJElement) (p : SJPair) (off : Rat)
    (hab : p.a ≠ p.b) (ha : p.a < es.length) (hb : p.b < es.length) :
    (getElement (adjust es p off) p.a).size + (getElement (adjust es p off) p.b).size
      = (getElement es p.a).size + (getElement es p.b).size := by
  rw [getElement_adjust_a es p off hab ha, getElement_adjust_b es p off hb]
  ring

theorem dragPush_not_pushable (cfg : DragConfig) (g : Nat → Rat × Rat)
    (pairs : List SJPair) (i : Nat) (off : Rat) (h : cfg.pushablePanes = false) :
    dragPush cfg g pairs i off = (getPair pairs i, off) := by
  simp [dragPush, h]

theorem dragPush_no_borrow (cfg : DragConfig) (g : Nat → Rat × Rat)
    (pairs : List SJPair) (i : Nat) (off : Rat)
    (h : ¬ borrowsNeighbor cfg pairs i off) :
    dragPush cfg g pairs i off = (getPair pairs i, off) := by
  by_cases h1 : cfg.pushablePanes ∧ pairs.length > 1
  · have hc1 : ¬ ((getPair pairs i).isFirst = false ∧ off < 0) := by
      rintro ⟨hx, hy⟩
      exact h ⟨h1.1, h1.2, Or.inl ⟨by simp [hx], hy⟩⟩
    have hc2 : ¬ ((getPair pairs i).isLast = false ∧ (getPair pairs i).size < off) := by
      rintro ⟨hx, hy⟩
      exact h ⟨h1.1, h1.2, Or.inr ⟨by simp [hx], hy⟩⟩
    simp [dragPush, h1, hc1, hc2]
  · simp [dragPush, h1]

theorem dragEvent_pairs (cfg : DragConfig) (g : Nat → Rat × Rat) (st : SplitState)
    (i : Nat) (c : Rat) : (dragEvent cfg g st i c).pairs = st.pairs := by
  unfold dragEvent
  split <;> rfl

theorem dragEvent_elements_length (cfg : DragConfig) (g : Nat → Rat × Rat)
    (st : SplitState) (i : Nat) (c : Rat) :
    (dragEvent cfg g st i c).elements.length = st.elements.length := by
  unfold dragEvent
  split
  · simpa using adjust_length st.elements _ _
  · rfl

theorem dragEvent_sum (cfg : DragConfig) (g : Nat → Rat × Rat) (st : SplitState)
    (i : Nat) (c : Rat)
    (hab : (getPair st.pairs i).a ≠ (getPair st.pairs i).b)
    (ha : (getPair st.pairs i).a < st.elements.length)
    (hb : (getPair st.pairs i).b < st.elements.length)
    (hnp : cfg.pushablePanes = false ∨
      ¬ borrowsNeighbor cfg st.pairs i (c - (getPair st.pairs i).start)) :
    (getElement (dragEvent cfg g st i c).elements (getPair st.pairs i).a).size
      + (getElement (dragEvent cfg g st i c).elements (getPair st.pairs i).b).size
    = (getElement st.elements (getPair st.pairs i).a).size
      + (getElement st.elements (getPair st.pairs i).b).size := by
  have hpush : dragPush cfg g st.pairs i (c - (getPair st.pairs i).start)
      = (getPair st.pairs i, c - (getPair st.pairs i).start) := by
    cases hnp with
    | inl h => exact dragPush_not_pushable cfg g st.pairs i _ h
    | inr h => exact dragPush_no_borrow cfg g st.pairs i _ h
  have heff : dragEffectivePair cfg g st i c = getPair st.pairs i := by
    unfold dragEffectivePair
    rw [hpush]
  unfold dragEvent
  split
  · dsimp only
    rw [heff]
    exact adjust_sum st.elements _ _ hab ha hb
  · rfl

theorem dragSeq_sum_aux (cfg : DragConfig) (g : Nat → Rat × Rat) (i : Nat) :
    ∀ (coords : List Rat) (st : SplitState),
      (getPair st.pairs i).a ≠ (getPair st.pairs i).b →
      (getPair st.pairs i).a < st.elements.length →
      (getPair st.pairs i).b < st.elements.length →
      (cfg.pushablePanes = false ∨
        ∀ c ∈ coords, ¬ borrowsNeighbor cfg st.pairs i (c - (getPair st.pairs i).start)) →
      (getElement (dragSeq cfg g st i coords).elements (getPair st.pairs i).a).size
        + (getElement (dragSeq cfg g st i coords).elements (getPair st.pairs i).b).size
      = (getElement st.elements (getPair st.pairs i).a).size
        + (getElement st.elements (getPair st.pairs i).b).size
  | [], _, _, _, _, _ => rfl
  | c :: cs, st, hab, ha, hb, hnp => by
    have hfold : dragSeq cfg g st i (c :: cs) = dragSeq cfg g (dragEvent cfg g st i c) i cs := rfl
    have hpairs : (dragEvent cfg g st i c).pairs = st.pairs := dragEvent_pairs cfg g st i c
    have hlen : (dragEvent cfg g st i c).elements.length = st.elements.length :=
      dragEvent_elements_length cfg g st i c
    have ih := dragSeq_sum_aux cfg g i cs (dragEvent cfg g st i c)
      (by rw [hpairs]; exact hab)
      (by rw [hpairs, hlen]; exact ha)
      (by rw [hpairs, hlen]; exact hb)
      (by
        cases hnp with
        | inl h => exact Or.inl h
        | inr h =>
          refine Or.inr (fun x hx => ?_)
          rw [hpairs]
          exact h x (List.mem_cons_of_mem c hx))
    rw [hfold]
    rw [hpairs] at ih
    rw [ih]
    exact dragEvent_sum cfg g st i c hab ha hb (by
      cases hnp with
      | inl h => exact Or.inl h
      | inr h => exact Or.inr (h c (List.mem_cons_self c cs)))

/-- C1: for every pair and every sequence of move events handled by `drag`
without push-through (push-through disabled, or no move borrows a
neighbour), the sum `elements[P.a].size + elements[P.b].size` of the dragged
pair is exactly unchanged: `adjust` sets `a.size` to
`(offset / pair.size) * (a.size + b.size)` and `b.size` to the remainder of
that same total. -/
theorem drag_conserves_pair_sum (cfg : DragConfig) (g : Nat → Rat × Rat)
    (st : SplitState) (i : Nat) (coords : List Rat)
    (hab : (getPair st.pairs i).a ≠ (getPair st.pairs i).b)
    (ha : (getPair st.pairs i).a < st.elements.length)
    (hb : (getPair st.pairs i).b < st.elements.length)
    (hnp : cfg.pushablePanes = false ∨
      ∀ c ∈ coords, ¬ borrowsNeighbor cfg st.pairs i (c - (getPair st.pairs i).start)) :
    (getElement (dragSeq cfg g st i coords).elements (getPair st.pairs i).a).size
      + (getElement (dragSeq cfg g st i coords).elements (getPair st.pairs i).b).size
    = (getElement st.elements (getPair st.pairs i).a).size
      + (getElement st.elements (getPair st.pairs i).b).size :=
  dragSeq_sum_aux cfg g i coords st hab ha hb hnp

theorem drag_conserves_pair_sum_witness :
    (getElement (dragSeq fixCfg fixG fixSt 0 [12, 77, 3]).elements (getPair fixSt.pairs 0).a).size
      + (getElement (dragSeq fixCfg fixG fixSt 0 [12, 77, 3]).elements (getPair fixSt.pairs 0).b).size
    = (getElement fixSt.elements (getPair fixSt.pairs 0).a).size
      + (getElement fixSt.elements (getPair fixSt.pairs 0).b).size :=
  drag_conserves_pair_sum fixCfg fixG fixSt 0 [12, 77, 3]
    (by decide) (by decide) (by decide) (Or.inl rfl)

/-- C5: a move event handled by `drag` operates on a shallow copy of the
dragged pair — even when push-through rebinds the copy, the base `Pair`
object stored in the `pairs` array is unchanged after the move event (the
borrowed composite pair is never persisted). -/
theorem drag_never_persists_pair_copy (cfg : DragConfig) (g : Nat → Rat × Rat)
    (st : SplitState) (i : Nat) (c : Rat) :
    (dragEvent cfg g st i c).pairs = st.pairs
    ∧ getPair (dragEvent cfg g st i c).pairs i = getPair st.pairs i := by
  have h := dragEvent_pairs cfg g st i c
  exact ⟨h, by rw [h]⟩

end SplitJS

namespace SplitJS

/-- C2 (counterexample): the b-side clamp is an `else if`, so an offset
lying in both snap zones at once (span too small for the zones to be
disjoint: span 100, both minima 50, snap 30, gutters 5, offset 50) takes
the a-branch: the applied offset is `a.minSize + aGutterSize = 55`, not the
`pair.size - (b.minSize + bGutterSize) = 45` the claim promises for every
offset within the b-side snap zone. -/
theorem snap_b_zone_cex :
    (50 : Rat) - fixPair.start
        ≥ fixPair.size - ((getElement fixSt.elements fixPair.b).minSize
          + fixCfg.snapOffset + fixPair.bGutterSize)
    ∧ dragAppliedOffset fixCfg fixG fixSt 0 50
        = (getElement fixSt.elements fixPair.a).minSize + fixPair.aGutterSize
    ∧ dragAppliedOffset fixCfg fixG fixSt 0 50
        ≠ fixPair.size - ((getElement fixSt.elements fixPair.b).minSize
          + fixPair.bGutterSize) := by
  norm_num [dragAppliedOffset, dragEffectivePair, dragComputedOffset, dragPush,
    snapClamp, getElement, getPair, fixSt, fixPair, fixCfg]

/-- C2 (amended): during a drag without push-through, a computed offset at
or below `a.minSize + snapOffset + aGutterSize` is applied as exactly
`a.minSize + aGutterSize`; an offset within `snapOffset` of pane b's
minimum measured from the far end is applied as exactly
`pair.size - (b.minSize + bGutterSize)` provided it is not also in pane a's
snap zone, which takes priority. -/
theorem snap_lands_exactly_on_minimum (cfg : DragConfig) (g : Nat → Rat × Rat)
    (st : SplitState) (i : Nat) (clientPos : Rat)
    (hpush : cfg.pushablePanes = false) :
    (clientPos - (getPair st.pairs i).start
        ≤ (getElement st.elements (getPair st.pairs i).a).minSize + cfg.snapOffset
          + (getPair st.pairs i).aGutterSize →
      dragAppliedOffset cfg g st i clientPos
        = (getElement st.elements (getPair st.pairs i).a).minSize
          + (getPair st.pairs i).aGutterSize)
    ∧ ((getElement st.elements (getPair st.pairs i).a).minSize + cfg.snapOffset
          + (getPair st.pairs i).aGutterSize < clientPos - (getPair st.pairs i).start →
      clientPos - (getPair st.pairs i).start
        ≥ (getPair st.pairs i).size - ((getElement st.elements (getPair st.pairs i).b).minSize
          + cfg.snapOffset + (getPair st.pairs i).bGutterSize) →
      dragAppliedOffset cfg g st i clientPos
        = (getPair st.pairs i).size - ((getElement st.elements (getPair st.pairs i).b).minSize
          + (getPair st.pairs i).bGutterSize)) := by
  unfold dragAppliedOffset dragEffectivePair dragComputedOffset
  rw [dragPush_not_pushable cfg g st.pairs i _ hpush]
  unfold snapClamp
  constructor
  · intro h
    rw [if_pos h]
  · intro h1 h2
    rw [if_neg (not_le.mpr h1), if_pos h2]

theorem snap_lands_exactly_on_minimum_witness :
    ((40 : Rat) - (getPair fixSt.pairs 0).start
        ≤ (getElement fixSt.elements (getPair fixSt.pairs 0).a).minSize + fixCfg.snapOffset
          + (getPair fixSt.pairs 0).aGutterSize →
      dragAppliedOffset fixCfg fixG fixSt 0 40
        = (getElement fixSt.elements (getPair fixSt.pairs 0).a).minSize
          + (getPair fixSt.pairs 0).aGutterSize)
    ∧ ((getElement fixSt.elements (getPair fixSt.pairs 0).a).minSize + fixCfg.snapOffset
          + (getPair fixSt.pairs 0).aGutterSize < (40 : Rat) - (getPair fixSt.pairs 0).start →
      (40 : Rat) - (getPair fixSt.pairs 0).start
        ≥ (getPair fixSt.pairs 0).size - ((getElement fixSt.elements (getPair fixSt.pairs 0).b).minSize
          + fixCfg.snapOffset + (getPair fixSt.pairs 0).bGutterSize) →
      dragAppliedOffset fixCfg fixG fixSt 0 40
        = (getPair fixSt.pairs 0).size - ((getElement fixSt.elements (getPair fixSt.pairs 0).b).minSize
          + (getPair fixSt.pairs 0).bGutterSize)) :=
  snap_lands_exactly_on_minimum fixCfg fixG fixSt 0 40 rfl

/-- C9 (counterexample): when the pair's span cannot fit both minima plus
gutters (span 100 but `a.minSize + aGutterSize + b.minSize + bGutterSize =
110`), a computed offset of 90 escapes the a-side clamp yet triggers the
b-side clamp, and the applied offset `45` is strictly below
`a.minSize + aGutterSize = 55` — the claimed hard lower bound fails. -/
theorem drag_lower_bound_cex :
    dragAppliedOffset fixCfg fixG fixSt 0 90
      < (getElement fixSt.elements fixPair.a).minSize + fixPair.aGutterSize := by
  norm_num [dragAppliedOffset, dragEffectivePair, dragComputedOffset, dragPush,
    snapClamp, getElement, getPair, fixSt, fixPair, fixCfg]

/-- C9 (amended): during a drag without push-through, if `snapOffset ≥ 0`
and the pair's span is at least `a.minSize + aGutterSize + b.minSize +
bGutterSize`, the offset passed to `adjust` is never strictly below
`a.minSize + aGutterSize`, and whenever the lower clamp does not fire the
applied offset is at most `pair.size - (b.minSize + bGutterSize)`. -/
theorem drag_applied_offset_bounds (cfg : DragConfig) (g : Nat → Rat × Rat)
    (st : SplitState) (i : Nat) (clientPos : Rat)
    (hpush : cfg.pushablePanes = false)
    (hsnap : 0 ≤ cfg.snapOffset)
    (hfit : (getElement st.elements (getPair st.pairs i).a).minSize
          + (getPair st.pairs i).aGutterSize
          + ((getElement st.elements (getPair st.pairs i).b).minSize
            + (getPair st.pairs i).bGutterSize)
        ≤ (getPair st.pairs i).size) :
    (getElement st.elements (getPair st.pairs i).a).minSize + (getPair st.pairs i).aGutterSize
        ≤ dragAppliedOffset cfg g st i clientPos
    ∧ ((getElement st.elements (getPair st.pairs i).a).minSize + cfg.snapOffset
          + (getPair st.pairs i).aGutterSize < clientPos - (getPair st.pairs i).start →
      dragAppliedOffset cfg g st i clientPos
        ≤ (getPair st.pairs i).size - ((getElement st.elements (getPair st.pairs i).b).minSize
          + (getPair st.pairs i).bGutterSize)) := by
  unfold dragAppliedOffset dragEffectivePair dragComputedOffset
  rw [dragPush_not_pushable cfg g st.pairs i _ hpush]
  unfold snapClamp
  constructor
  · split_ifs with h1 h2
    · exact le_refl _
    · linarith
    · linarith
  · intro h3
    split_ifs with h1 h2
    · linarith
    · exact le_refl _
    · linarith

theorem drag_applied_offset_bounds_witness :
    (getElement fixStWide.elements (getPair fixStWide.pairs 0).a).minSize
        + (getPair fixStWide.pairs 0).aGutterSize
        ≤ dragAppliedOffset ⟨false, 10⟩ fixG fixStWide 0 70
    ∧ ((getElement fixStWide.elements (getPair fixStWide.pairs 0).a).minSize
          + (⟨false, 10⟩ : DragConfig).snapOffset
          + (getPair fixStWide.pairs 0).aGutterSize < (70 : Rat) - (getPair fixStWide.pairs 0).start →
      dragAppliedOffset ⟨false, 10⟩ fixG fixStWide 0 70
        ≤ (getPair fixStWide.pairs 0).size
          - ((getElement fixStWide.elements (getPair fixStWide.pairs 0).b).minSize
            + (getPair fixStWide.pairs 0).bGutterSize)) :=
  drag_applied_offset_bounds ⟨false, 10⟩ fixG fixStWide 0 70 rfl (by norm_num)
    (by norm_num [getElement, getPair, fixStWide, fixPairWide])

end SplitJS

namespace SplitJS

/-- C3 (counterexample): in a 1000px parent with two 50-percent panes of
minimum size 50px and 5px gutter allowances, `collapse(0)` leaves pane 0
with share `aGutterSize / span * 100 = 1/2` percent — the share of its
gutter allowance alone, i.e. zero rendered pixels — strictly below the
share `(minSize + aGutterSize) / span * 100 = 11/2` that would place it at
its configured minimum.  `collapse` passes `pair.aGutterSize` to `adjust`
with no minimum-size term and no snap clamp. -/
theorem collapse_not_to_minimum_cex :
    (getElement (collapse fixG1000 fixSt 0).elements 0).size
        = fixPair.aGutterSize / 1000 * 100
    ∧ (getElement (collapse fixG1000 fixSt 0).elements 0).size
        < ((getElement fixSt.elements 0).minSize + fixPair.aGutterSize) / 1000 * 100 := by
  norm_num [collapse, calculateSizes, adjust, getElement, getPair, fixSt, fixPair, fixG1000]

/-- C3 (amended): `collapse` re-snapshots geometry via `calculateSizes` and
calls the same `adjust` routine used by drag with a computed offset — but
that offset is only the gutter allowance: `collapse(0)` passes
`pair.aGutterSize`, leaving pane 0 with share `aGutterSize / span * (sum)`
(effectively zero rendered size, ignoring its configured `minSize`) and
pane 1 absorbing the remainder; `collapse(pairs.length)` passes
`pair.size - pair.bGutterSize`, leaving the last pane with share
`bGutterSize / span * (sum)`. -/
theorem collapse_offsets (g : Nat → Rat × Rat) (st : SplitState)
    (hlen : 0 < st.pairs.length)
    (hab0 : (getPair st.pairs 0).a ≠ (getPair st.pairs 0).b)
    (ha0 : (getPair st.pairs 0).a < st.elements.length)
    (hbL : (getPair st.pairs (st.pairs.length - 1)).b < st.elements.length)
    (hspan : (calculateSizes g (getPair st.pairs (st.pairs.length - 1))).size ≠ 0) :
    (collapse g st 0).elements
        = adjust st.elements (calculateSizes g (getPair st.pairs 0))
            ((getPair st.pairs 0).aGutterSize)
    ∧ (getElement (collapse g st 0).elements (getPair st.pairs 0).a).size
        = (getPair st.pairs 0).aGutterSize / (calculateSizes g (getPair st.pairs 0)).size
          * ((getElement st.elements (getPair st.pairs 0).a).size
            + (getElement st.elements (getPair st.pairs 0).b).size)
    ∧ (collapse g st st.pairs.length).elements
        = adjust st.elements (calculateSizes g (getPair st.pairs (st.pairs.length - 1)))
            ((calculateSizes g (getPair st.pairs (st.pairs.length - 1))).size
              - (getPair st.pairs (st.pairs.length - 1)).bGutterSize)
    ∧ (getElement (collapse g st st.pairs.length).elements
          (getPair st.pairs (st.pairs.length - 1)).b).size
        = (getPair st.pairs (st.pairs.length - 1)).bGutterSize
          / (calculateSizes g (getPair st.pairs (st.pairs.length - 1))).size
          * ((getElement st.elements (getPair st.pairs (st.pairs.length - 1)).a).size
            + (getElement st.elements (getPair st.pairs (st.pairs.length - 1)).b).size) := by
  have h0 : (0 : Nat) ≠ st.pairs.length := by omega
  have hcol0 : (collapse g st 0).elements
      = adjust st.elements (calculateSizes g (getPair st.pairs 0))
          ((getPair st.pairs 0).aGutterSize) := by
    unfold collapse
    rw [if_neg h0]
    rfl
  have hcolL : (collapse g st st.pairs.length).elements
      = adjust st.elements (calculateSizes g (getPair st.pairs (st.pairs.length - 1)))
          ((calculateSizes g (getPair st.pairs (st.pairs.length - 1))).size
            - (getPair st.pairs (st.pairs.length - 1)).bGutterSize) := by
    unfold collapse
    rw [if_pos rfl]
    rfl
  refine ⟨hcol0, ?_, hcolL, ?_⟩
  · rw [hcol0]
    exact getElement_adjust_a st.elements (calculateSizes g (getPair st.pairs 0))
      ((getPair st.pairs 0).aGutterSize) hab0 ha0
  · rw [hcolL]
    have hx : (getElement
          (adjust st.elements (calculateSizes g (getPair st.pairs (st.pairs.length - 1)))
            ((calculateSizes g (getPair st.pairs (st.pairs.length - 1))).size
              - (getPair st.pairs (st.pairs.length - 1)).bGutterSize))
          (getPair st.pairs (st.pairs.length - 1)).b).size
        = (getElement st.elements (getPair st.pairs (st.pairs.length - 1)).a).size
          + (getElement st.elements (getPair st.pairs (st.pairs.length - 1)).b).size
          - ((calculateSizes g (getPair st.pairs (st.pairs.length - 1))).size
              - (getPair st.pairs (st.pairs.length - 1)).bGutterSize)
            / (calculateSizes g (getPair st.pairs (st.pairs.length - 1))).size
            * ((getElement st.elements (getPair st.pairs (st.pairs.length - 1)).a).size
              + (getElement st.elements (getPair st.pairs (st.pairs.length - 1)).b).size) :=
      getElement_adjust_b st.elements (calculateSizes g (getPair st.pairs (st.pairs.length - 1)))
        ((calculateSizes g (getPair st.pairs (st.pairs.length - 1))).size
          - (getPair st.pairs (st.pairs.length - 1)).bGutterSize) hbL
    rw [hx]
    field_simp
    ring

end SplitJS

namespace SplitJS

theorem collapse_offsets_witness :
    (collapse fixG1000 fixSt 0).elements
        = adjust fixSt.elements (calculateSizes fixG1000 (getPair fixSt.pairs 0))
            ((getPair fixSt.pairs 0).aGutterSize)
    ∧ (getElement (collapse fixG1000 fixSt 0).elements (getPair fixSt.pairs 0).a).size
        = (getPair fixSt.pairs 0).aGutterSize
          / (calculateSizes fixG1000 (getPair fixSt.pairs 0)).size
          * ((getElement fixSt.elements (getPair fixSt.pairs 0).a).size
            + (getElement fixSt.elements (getPair fixSt.pairs 0).b).size)
    ∧ (collapse fixG1000 fixSt fixSt.pairs.length).elements
        = adjust fixSt.elements
            (calculateSizes fixG1000 (getPair fixSt.pairs (fixSt.pairs.length - 1)))
            ((calculateSizes fixG1000 (getPair fixSt.pairs (fixSt.pairs.length - 1))).size
              - (getPair fixSt.pairs (fixSt.pairs.length - 1)).bGutterSize)
    ∧ (getElement (collapse fixG1000 fixSt fixSt.pairs.length).elements
          (getPair fixSt.pairs (fixSt.pairs.length - 1)).b).size
        = (getPair fixSt.pairs (fixSt.pairs.length - 1)).bGutterSize
          / (calculateSizes fixG1000 (getPair fixSt.pairs (fixSt.pairs.length - 1))).size
          * ((getElement fixSt.elements (getPair fixSt.pairs (fixSt.pairs.length - 1)).a).size
            + (getElement fixSt.elements (getPair fixSt.pairs (fixSt.pairs.length - 1)).b).size) :=
  collapse_offsets fixG1000 fixSt (by decide) (by decide) (by decide) (by decide)
    (by norm_num [calculateSizes, getPair, fixSt, fixPair, fixG1000])

end SplitJS

namespace SplitJS

theorem buildLoop_good_then_missing (post : List (Option Nat)) (pre : List (Option Nat)) :
    ∀ (i : Nat) (p : BuildProgress), (∀ x ∈ pre, x ≠ none) → 0 < i →
      buildLoop i (pre ++ none :: post) p
        = Except.error ⟨p.guttersInserted + pre.length + 1, p.elementsStyled + pre.length⟩ := by
  induction pre with
  | nil =>
    intro i p _ hi
    simp [buildLoop, buildStep, hi]
  | cons x pre' ih =>
    intro i p hgood hi
    match x with
    | none => exact absurd rfl (hgood none (List.mem_cons_self _ _))
    | some e =>
      have hstep : buildLoop i ((some e :: pre') ++ none :: post) p
          = buildLoop (i + 1) (pre' ++ none :: post)
              ⟨p.guttersInserted + 1, p.elementsStyled + 1⟩ := by
        simp [buildLoop, buildStep, hi]
      rw [hstep, ih (i + 1) ⟨p.guttersInserted + 1, p.elementsStyled + 1⟩
        (fun x hx => hgood x (List.mem_cons_of_mem _ hx)) (Nat.succ_pos i)]
      have h1 : p.guttersInserted + 1 + pre'.length + 1
          = p.guttersInserted + (pre'.length + 1) + 1 := by omega
      have h2 : p.elementsStyled + 1 + pre'.length = p.elementsStyled + (pre'.length + 1) := by
        omega
      simp [h1, h2]

theorem createPanes_good_then_missing (opts : UISplitter.UIMergedOptions)
    (post : List (Option Nat)) :
    ∀ (pre : List (Option Nat)), (∀ x ∈ pre, x ≠ none) →
      UISplitter.createPanes opts (pre ++ none :: post) = Except.error ()
  | [], _ => rfl
  | none :: _, hgood => absurd rfl (hgood none (List.mem_cons_self _ _))
  | some e :: pre', hgood => by
    have ih := createPanes_good_then_missing opts post pre'
      (fun x hx => hgood x (List.mem_cons_of_mem _ hx))
    simp [UISplitter.createPanes, ih, Except.map]

/-- C4 (counterexample): constructing the `Split` facade with
`['#a', '#b', '#missing']` does throw synchronously (the `null` element's
`style` dereference raises), but at the moment of the throw two divider
elements have already been inserted into the parent — including the one for
the pair adjacent to the missing element, since
`parent.insertBefore(gutterElement, null)` appends before `setElementSize`
throws — so the construction is not atomic and the "no divider inserted"
part of the claim fails. -/
theorem split_construction_not_atomic_cex :
    splitBuild [some 0, some 1, none] = Except.error ⟨2, 2⟩
    ∧ (2 : Nat) ≠ 0 := by
  constructor
  · rfl
  · decide

/-- C4 (amended): for every input list whose first unresolvable selector
sits at position `k ≥ 1` (the earlier ids all resolve), `Split`
construction throws synchronously — but only after inserting the `k`
divider elements of the pairs processed so far (including the one adjacent
to the missing element) and styling the `k` earlier panes, so partial DOM
effects remain; the `UISplitter` facade's `createPanes` throws
synchronously with no divider ever created. -/
theorem construction_throws_on_missing_element (pre post : List (Option Nat))
    (hgood : ∀ x ∈ pre, x ≠ none) (hne : pre ≠ []) :
    splitBuild (pre ++ none :: post) = Except.error ⟨pre.length, pre.length⟩
    ∧ ∀ opts, UISplitter.createPanes opts (pre ++ none :: post) = Except.error () := by
  constructor
  · match pre, hne with
    | x :: pre', _ =>
      match x with
      | none => exact absurd rfl (hgood none (List.mem_cons_self _ _))
      | some e =>
        have hstep : splitBuild ((some e :: pre') ++ none :: post)
            = buildLoop 1 (pre' ++ none :: post) ⟨0, 1⟩ := by
          simp [splitBuild, buildLoop, buildStep]
        rw [hstep, buildLoop_good_then_missing post pre' 1 ⟨0, 1⟩
          (fun x hx => hgood x (List.mem_cons_of_mem _ hx)) Nat.one_pos]
        have h1 : 0 + pre'.length + 1 = (some e :: pre').length := by simp
        have h2 : 1 + pre'.length = (some e :: pre').length := by simp; omega
        simp [h1, h2]
  · intro opts
    exact createPanes_good_then_missing opts post pre hgood

theorem construction_throws_on_missing_element_witness :
    (splitBuild ([some 0, some 1] ++ none :: [])
        = Except.error ⟨[some 0, some 1].length, [some (0 : Nat), some 1].length⟩
    ∧ ∀ opts, UISplitter.createPanes opts ([some 0, some 1] ++ none :: [])
        = Except.error ()) :=
  construction_throws_on_missing_element [some 0, some 1] [] (by decide) (by decide)

end SplitJS

namespace SplitJS

theorem buildPairs_eq_map (gz : Rat) (n : Nat) (rev : Bool) :
    buildPairs gz n rev = (List.range (n - 1)).map (fun j => mkPair gz n rev (j + 1)) := by
  cases n with
  | zero => rfl
  | succ m =>
    unfold buildPairs
    rw [List.range_succ_eq_map, List.filterMap_cons]
    have hz : ¬ (0 : Nat) < 0 := by omega
    simp only [hz, if_false, List.filterMap_map]
    have hfun : ((fun i => if 0 < i then some (mkPair gz (m + 1) rev i) else none) ∘ Nat.succ)
        = fun j => some (mkPair gz (m + 1) rev (j + 1)) := by
      funext j
      simp [Function.comp, Nat.succ_pos]
    rw [hfun]
    have : (Nat.succ m) - 1 = m := rfl
    rw [this]
    exact List.filterMap_eq_map (fun j => mkPair gz (m + 1) rev (j + 1)) ▸ rfl

theorem getPair_buildPairs (gz : Rat) (n : Nat) (rev : Bool) (j : Nat) (hj : j < n - 1) :
    getPair (buildPairs gz n rev) j = mkPair gz n rev (j + 1) := by
  rw [buildPairs_eq_map]
  unfold getPair
  simp [List.getElem?_map, List.getElem?_range hj]

/-- C6: construction from `n ≥ 2` panes builds exactly `n - 1` pairs, the
first pair's `aGutterSize` and the last pair's `bGutterSize` are
`gutterSize / 2` while every other pair-side allowance is the full
`gutterSize`; correspondingly the first and last panes are styled with a
`gutterSize / 2` allowance and every internal pane with the full
`gutterSize`. -/
theorem construction_gutter_allowances (gz : Rat) (n : Nat) (rev : Bool) (hn : 2 ≤ n) :
    (buildPairs gz n rev).length = n - 1
    ∧ (getPair (buildPairs gz n rev) 0).aGutterSize = gz / 2
    ∧ (getPair (buildPairs gz n rev) (n - 2)).bGutterSize = gz / 2
    ∧ (∀ j, 0 < j → j < n - 1 → (getPair (buildPairs gz n rev) j).aGutterSize = gz)
    ∧ (∀ j, j < n - 2 → (getPair (buildPairs gz n rev) j).bGutterSize = gz)
    ∧ elementGutterAllowance gz n 0 = gz / 2
    ∧ elementGutterAllowance gz n (n - 1) = gz / 2
    ∧ (∀ i, 0 < i → i < n - 1 → elementGutterAllowance gz n i = gz) := by
  refine ⟨?_, ?_, ?_, ?_, ?_, ?_, ?_, ?_⟩
  · rw [buildPairs_eq_map]
    simp
  · rw [getPair_buildPairs gz n rev 0 (by omega)]
    cases rev <;> simp [mkPair]
  · rw [getPair_buildPairs gz n rev (n - 2) (by omega)]
    have hL : n - 2 + 1 = n - 1 := by omega
    cases rev <;> simp [mkPair, hL]
  · intro j hj0 hj1
    rw [getPair_buildPairs gz n rev j hj1]
    have hf : (j + 1 = 1) = False := by simp; omega
    cases rev <;> simp [mkPair, hf]
  · intro j hj
    rw [getPair_buildPairs gz n rev j (by omega)]
    have hf : (j + 1 = n - 1) = False := by simp; omega
    cases rev <;> simp [mkPair, hf]
  · simp [elementGutterAllowance]
  · simp [elementGutterAllowance]
  · intro i hi0 hi1
    have hf0 : i ≠ 0 := by omega
    have hf1 : i ≠ n - 1 := by omega
    simp [elementGutterAllowance, hf0, hf1]

theorem construction_gutter_allowances_witness :
    (buildPairs 10 4 false).length = 4 - 1
    ∧ (getPair (buildPairs 10 4 false) 0).aGutterSize = 10 / 2
    ∧ (getPair (buildPairs 10 4 false) (4 - 2)).bGutterSize = 10 / 2
    ∧ (∀ j, 0 < j → j < 4 - 1 → (getPair (buildPairs 10 4 false) j).aGutterSize = 10)
    ∧ (∀ j, j < 4 - 2 → (getPair (buildPairs 10 4 false) j).bGutterSize = 10)
    ∧ elementGutterAllowance 10 4 0 = 10 / 2
    ∧ elementGutterAllowance 10 4 (4 - 1) = 10 / 2
    ∧ (∀ i, 0 < i → i < 4 - 1 → elementGutterAllowance 10 4 i = 10) :=
  construction_gutter_allowances 10 4 false (by decide)

end SplitJS

namespace SplitJS

/-- C7: after a 3-pane construction, `destroy()` removes exactly the 2
divider elements from the parent (one `removeChild` per pair) and clears
the axis-dimension inline style on all 3 panes (pairs (0,1) and (1,2)
together cover every pane), while every other inline style property of
every pane is left unchanged. -/
theorem destroy_three_panes (dim : String) (gz : Rat) (rev : Bool) (d : DestroyDOM)
    (h3 : d.paneStyles.length = 3)
    (h1 : (1 : Nat) ∈ d.parentChildren) (h2 : (2 : Nat) ∈ d.parentChildren) :
    (destroy dim (buildPairs gz 3 rev) d).parentChildren
        = (d.parentChildren.erase 1).erase 2
    ∧ (destroy dim (buildPairs gz 3 rev) d).parentChildren.length + 2
        = d.parentChildren.length
    ∧ (∀ k, k < 3 →
        ((destroy dim (buildPairs gz 3 rev) d).paneStyles.getD k emptyStyle) dim = "")
    ∧ (∀ k, k < 3 → ∀ p, p ≠ dim →
        ((destroy dim (buildPairs gz 3 rev) d).paneStyles.getD k emptyStyle) p
          = (d.paneStyles.getD k emptyStyle) p) := by
  obtain ⟨children, styles⟩ := d
  have h2' : (2 : Nat) ∈ children.erase 1 := by
    rw [List.mem_erase_of_ne (by decide)]
    exact h2
  have hlen1 : (children.erase 1).length = children.length - 1 := List.length_erase_of_mem h1
  have hlen2 : ((children.erase 1).erase 2).length = (children.erase 1).length - 1 :=
    List.length_erase_of_mem h2'
  have hpos1 : 0 < children.length := List.length_pos_of_mem h1
  have hpos2 : 0 < (children.erase 1).length := List.length_pos_of_mem h2'
  match styles, h3 with
  | [s0, s1, s2], _ =>
    cases rev with
    | false =>
      have hbp : buildPairs gz 3 false
          = [⟨0, 1, gz / 2, gz, 0, 0, false, true, false, 1⟩,
             ⟨1, 2, gz, gz / 2, 0, 0, false, false, true, 2⟩] := by
        rw [buildPairs_eq_map]
        rfl
      rw [hbp]
      refine ⟨rfl, ?_, ?_, ?_⟩
      · simp only [destroy, List.foldl]
        omega
      · intro k hk
        interval_cases k <;> simp [destroy, clearPaneDim, clearDim]
      · intro k hk p hp
        interval_cases k <;> simp [destroy, clearPaneDim, clearDim, hp]
    | true =>
      have hbp : buildPairs gz 3 true
          = [⟨1, 0, gz / 2, gz, 0, 0, false, true, false, 1⟩,
             ⟨2, 1, gz, gz / 2, 0, 0, false, false, true, 2⟩] := by
        rw [buildPairs_eq_map]
        rfl
      rw [hbp]
      refine ⟨rfl, ?_, ?_, ?_⟩
      · simp only [destroy, List.foldl]
        omega
      · intro k hk
        interval_cases k <;> simp [destroy, clearPaneDim, clearDim]
      · intro k hk p hp
        interval_cases k <;> simp [destroy, clearPaneDim, clearDim, hp]

theorem destroy_three_panes_witness :
    (destroy "width" (buildPairs 10 3 false) fixDom).parentChildren
        = (fixDom.parentChildren.erase 1).erase 2
    ∧ (destroy "width" (buildPairs 10 3 false) fixDom).parentChildren.length + 2
        = fixDom.parentChildren.length
    ∧ (∀ k, k < 3 →
        ((destroy "width" (buildPairs 10 3 false) fixDom).paneStyles.getD k emptyStyle) "width" = "")
    ∧ (∀ k, k < 3 → ∀ p, p ≠ "width" →
        ((destroy "width" (buildPairs 10 3 false) fixDom).paneStyles.getD k emptyStyle) p
          = (fixDom.paneStyles.getD k emptyStyle) p) :=
  destroy_three_panes "width" 10 false fixDom rfl (by decide) (by decide)

end SplitJS

namespace UISplitter

/-- C8: in both `Pane.refreshSize` and `Gutter.refreshSize` both branches
test `isVertical`: when `isVertical` is true the second branch overwrites
the first, so the final geometry comes from the horizontal reading
(`bounds.width`, with start/end from left/right resp. top/bottom for
`Pane`), and when `isVertical` is false `refreshSize` assigns no geometry
field at all. -/
theorem refreshSize_double_vertical_test (r : Option Bool) (bounds : BoundsRect)
    (gm : PaneGeom) (sz : Option Rat) :
    paneRefreshSize ⟨true, r⟩ bounds gm
        = { size := some bounds.width,
            start := some (if truthy r then bounds.right else bounds.left),
            endEdge := some (if truthy r then bounds.bottom else bounds.top) }
    ∧ paneRefreshSize ⟨false, r⟩ bounds gm = gm
    ∧ gutterRefreshSize true bounds sz = some bounds.width
    ∧ gutterRefreshSize false bounds sz = sz :=
  ⟨rfl, rfl, rfl, rfl⟩

theorem createPanes_options (opts : UIMergedOptions) :
    ∀ (ids : List (Option Nat)) (panes : List UIPane),
      createPanes opts ids = Except.ok panes →
      ∀ p ∈ panes, p.options = ⟨opts.direction = "vertical", opts.reversedDirection⟩
  | [], panes, h => by
    simp only [createPanes] at h
    cases h
    intro p hp
    cases hp
  | none :: rest, panes, h => by
    simp only [createPanes] at h
    cases h
  | some e :: rest, panes, h => by
    unfold createPanes at h
    cases hrec : createPanes opts rest with
    | error u =>
      rw [hrec] at h
      simp [Except.map] at h
    | ok ps =>
      rw [hrec] at h
      simp only [Except.map] at h
      cases h
      intro p hp
      rcases List.mem_cons.mp hp with h1 | h2
      · rw [h1]
      · exact createPanes_options opts rest ps hrec p h2

/-- C10: every `Pane` constructed through the `UISplitter` facade receives
`isReverse` undefined (hence falsy), whatever options were passed: the
constructor stores the flag on `options.reverseDirection` (always `false`)
but `createPanes` reads `options.reversedDirection`, which is never set, so
the reverse-direction branches of `Pane.refreshSize` are unreachable — the
pane behaves exactly as with an explicit `isReverse := false`. -/
theorem uisplitter_reverse_unreachable (u : UIUserOptions) (ids : List (Option Nat))
    (panes : List UIPane) (h : createPanes (mergeOptions u) ids = Except.ok panes) :
    (mergeOptions u).reverseDirection = some false
    ∧ (mergeOptions u).reversedDirection = none
    ∧ ∀ p ∈ panes, p.options.isReverse = none
      ∧ truthy p.options.isReverse = false
      ∧ ∀ bounds gm, paneRefreshSize p.options bounds gm
          = paneRefreshSize ⟨p.options.isVertical, some false⟩ bounds gm := by
  refine ⟨rfl, rfl, ?_⟩
  intro p hp
  have hopt := createPanes_options (mergeOptions u) ids panes h p hp
  have hrev : p.options.isReverse = none := by
    rw [hopt]
    rfl
  refine ⟨hrev, by rw [hrev]; rfl, ?_⟩
  intro bounds gm
  unfold paneRefreshSize
  rw [hrev]
  rfl

theorem uisplitter_reverse_unreachable_witness :
    (mergeOptions fixUser).reverseDirection = some false
    ∧ (mergeOptions fixUser).reversedDirection = none
    ∧ ∀ p ∈ fixPanes, p.options.isReverse = none
      ∧ truthy p.options.isReverse = false
      ∧ ∀ bounds gm, paneRefreshSize p.options bounds gm
          = paneRefreshSize ⟨p.options.isVertical, some false⟩ bounds gm :=
  uisplitter_reverse_unreachable fixUser [some 0, some 1] fixPanes rfl

end UISplitter
